import Mathlib

/-!
Verification development for `service/sink.h` (Datacratic sink mechanism).

Byte strings (`std::string`) are modelled as `List Char`.  Callback side
effects (`onWrite_`, `onClose_`, `onHangup_`, enqueueing into the
cross-thread ring buffer, raising the wakeup fd, and writes to the output
file descriptor) are recorded in an explicit event trace, so that "callback
invoked exactly once" and ordering facts become statements about lists.
The `onWrite_` callback itself is modelled as a pure function from the byte
string to the number of bytes the medium accepted, matching its C++ type
`std::function<size_t (const char *, size_t)>`.

The bodies inlined in `sink.h` (`OutputSink::write`, both overloads,
`OutputSink::requestClose`, the `OutputSink` constructor, and the default
`InputSink` methods) are translated directly from the header.  The bodies
that live in `sink.cc` (`OutputSink::doClose` and all `AsyncFdOutputSink`
members) are not part of the sources; those definitions are modelled from
the specification and are marked as such in their doc comments.
-/

/-- The observable events a sink can emit.  `onWriteCall` records an
invocation of the `onWrite_` callback with the byte string handed to it;
`onCloseCall` an invocation of `onClose_`; `onHangupCall` an invocation of
`onHangup_`; `enqueued` a push onto the cross-thread queue
(`threadBuffer_`); `wakeRaised` a signal on the wakeup fd; `fdWrite` a
non-blocking write of the given bytes accepted by the output descriptor. -/
inductive Event where
  | onWriteCall (data : List Char)
  | onCloseCall
  | onHangupCall
  | enqueued (data : List Char)
  | wakeRaised
  | fdWrite (data : List Char)
deriving DecidableEq, Repr

/-- Whether an event is an accepted write on the output descriptor. -/
def Event.isFdWrite : Event → Bool
  | Event.fdWrite _ => true
  | _ => false

/-- The `OutputSink::State` enumeration from `sink.h` lines 36-40. -/
inductive State where
  | OPEN
  | CLOSING
  | CLOSED
deriving DecidableEq, Repr

/-- Position of a state along the forward direction
`OPEN -> CLOSING -> CLOSED`, used to state monotonicity. -/
def State.rank : State → Nat
  | State.OPEN => 0
  | State.CLOSING => 1
  | State.CLOSED => 2

/-- The `OutputSink` base class state: the `state` field, the `onWrite_`
callback (as a pure function returning the number of bytes accepted) and
whether an `onClose_` callback was supplied (it defaults to `nullptr`). -/
structure OutputSink where
  state : State
  onWrite : List Char → Nat
  hasOnClose : Bool

/-- The `OutputSink` constructor (`sink.h` lines 42-44): initializes
`state` to `OPEN` and stores the callbacks. -/
def OutputSink.create (onWrite : List Char → Nat) (hasOnClose : Bool) :
    OutputSink :=
  { state := State.OPEN, onWrite := onWrite, hasOnClose := hasOnClose }

/-- `OutputSink::write(std::string &&)` (`sink.h` lines 47-48):
`return (onWrite_(data.c_str(), data.size()) > 0);` — it invokes
`onWrite_` once, unconditionally, and returns whether more than zero bytes
were accepted.  The sink state is not consulted and not changed. -/
def OutputSink.write (s : OutputSink) (data : List Char) :
    OutputSink × List Event × Bool :=
  (s, [Event.onWriteCall data], decide (0 < s.onWrite data))

/-- `OutputSink::write(const std::string &)` (`sink.h` lines 50-54):
copies its argument into `localData` and delegates to the virtual
rvalue overload, written generically over the dispatched `write`. -/
def writeCopy {σ : Type} (vwrite : σ → List Char → σ × List Event × Bool)
    (s : σ) (data : List Char) : σ × List Event × Bool :=
  let localData := data
  vwrite s localData

/-- Modelled from the spec: `OutputSink::doClose` is declared at `sink.h`
line 63 but its body lives in `sink.cc`, which is not among the sources.
Per the spec, closing moves the state to `Closed` and, once `Closed` is
reached, `onClose` fires exactly once regardless of how many close
requests were made; so a sink already `CLOSED` is left untouched. -/
def OutputSink.doClose (s : OutputSink) : OutputSink × List Event :=
  if s.state = State.CLOSED then (s, [])
  else ({ s with state := State.CLOSED },
        if s.hasOnClose then [Event.onCloseCall] else [])

/-- `OutputSink::requestClose` (`sink.h` lines 58-59): `{ doClose(); }`. -/
def OutputSink.requestClose (s : OutputSink) : OutputSink × List Event :=
  OutputSink.doClose s

/-- `n` successive calls to `OutputSink::requestClose`, accumulating the
emitted events in order. -/
def OutputSink.requestCloseN : Nat → OutputSink → OutputSink × List Event
  | 0, s => (s, [])
  | n + 1, s =>
    let r1 := OutputSink.requestClose s
    let r2 := OutputSink.requestCloseN n r1.1
    (r2.1, r1.2 ++ r2.2)

/-- The `AsyncFdOutputSink` state (`sink.h` lines 73-120): the inherited
`state`, whether an `onClose_` callback was supplied, the cross-thread
ring buffer `threadBuffer_` (a queue of byte strings), the local pending
buffer `buffer_`, and whether the wakeup fd has been signalled. -/
structure AsyncFdOutputSink where
  state : State
  hasOnClose : Bool
  threadBuffer : List (List Char)
  buffer : List Char
  wakeRaised : Bool
deriving DecidableEq, Repr

/-- Modelled from the spec: the `AsyncFdOutputSink` constructor (declared
at `sink.h` lines 76-79, body in `sink.cc`, not among the sources).  It
delegates to the `OutputSink` constructor, so the sink starts `OPEN`, with
an empty ring buffer and an empty local buffer. -/
def AsyncFdOutputSink.create (hasOnClose : Bool) (bufferSize : Nat) :
    AsyncFdOutputSink :=
  { state := State.OPEN, hasOnClose := hasOnClose, threadBuffer := [],
    buffer := [], wakeRaised := false }

/-- Modelled from the spec: close finalization of `AsyncFdOutputSink`
(`close()` / `doClose()`, declared at `sink.h` lines 94 and 102, bodies in
`sink.cc`, not among the sources).  Finalization sets `state = CLOSED` and
invokes `onClose` exactly once; a sink already `CLOSED` is untouched. -/
def AsyncFdOutputSink.doClose (s : AsyncFdOutputSink) :
    AsyncFdOutputSink × List Event :=
  if s.state = State.CLOSED then (s, [])
  else ({ s with state := State.CLOSED },
        if s.hasOnClose then [Event.onCloseCall] else [])

/-- Modelled from the spec: `AsyncFdOutputSink::flushStdInBuffer`
(declared at `sink.h` line 111, body in `sink.cc`, not among the
sources).  One flush step: issue one non-blocking write of as much of the
local buffer as the descriptor accepts (`cap` bytes at most per call),
remove the accepted part from the front; zero progress is transient
(re-arm, no event); if the buffer becomes (or already is) empty while
`state = CLOSING`, finalize the close. -/
def AsyncFdOutputSink.flushStdInBuffer (cap : Nat)
    (s : AsyncFdOutputSink) : AsyncFdOutputSink × List Event :=
  if s.buffer.isEmpty then
    if s.state = State.CLOSING then AsyncFdOutputSink.doClose s else (s, [])
  else
    let n := min cap s.buffer.length
    if n = 0 then (s, [])
    else
      let sent := s.buffer.take n
      let rest := s.buffer.drop n
      let s1 := { s with buffer := rest }
      if rest.isEmpty ∧ s1.state = State.CLOSING then
        let r := AsyncFdOutputSink.doClose s1
        (r.1, Event.fdWrite sent :: r.2)
      else (s1, [Event.fdWrite sent])

/-- Modelled from the spec: `AsyncFdOutputSink::write` (declared at
`sink.h` line 90, body in `sink.cc`, not among the sources).  If
`state != Open` it returns `false` immediately with no side effect.
Otherwise, called on the I/O thread it appends to the local buffer and
flushes immediately; called on any other thread it pushes the bytes onto
`threadBuffer_`, raises the wakeup signal and returns `true`. -/
def AsyncFdOutputSink.write (ioThread : Bool) (cap : Nat)
    (s : AsyncFdOutputSink) (data : List Char) :
    AsyncFdOutputSink × List Event × Bool :=
  if s.state = State.OPEN then
    if ioThread then
      let r := AsyncFdOutputSink.flushStdInBuffer cap
        { s with buffer := s.buffer ++ data }
      (r.1, r.2, true)
    else
      ({ s with threadBuffer := s.threadBuffer ++ [data],
                wakeRaised := true },
       [Event.enqueued data, Event.wakeRaised], true)
  else (s, [], false)

/-- Modelled from the spec: `AsyncFdOutputSink::requestClose` (declared at
`sink.h` line 91, body in `sink.cc`, not among the sources).  It sets
`state = CLOSING` (a no-op if the state is already past `OPEN`); if both
the local buffer and the cross-thread queue are empty it finalizes the
close immediately, otherwise finalization is deferred until the buffer
drains. -/
def AsyncFdOutputSink.requestClose (s : AsyncFdOutputSink) :
    AsyncFdOutputSink × List Event :=
  if s.state = State.OPEN then
    let s1 := { s with state := State.CLOSING }
    if s1.buffer.isEmpty ∧ s1.threadBuffer.isEmpty then
      AsyncFdOutputSink.doClose s1
    else (s1, [])
  else (s, [])

/-- `n` successive calls to `AsyncFdOutputSink::requestClose`,
accumulating the emitted events in order. -/
def AsyncFdOutputSink.requestCloseN :
    Nat → AsyncFdOutputSink → AsyncFdOutputSink × List Event
  | 0, s => (s, [])
  | n + 1, s =>
    let r1 := AsyncFdOutputSink.requestClose s
    let r2 := AsyncFdOutputSink.requestCloseN n r1.1
    (r2.1, r1.2 ++ r2.2)

/-- Modelled from the spec: `AsyncFdOutputSink::handleFdEvent` (declared
at `sink.h` line 105, body in `sink.cc`, not among the sources).  On a
hangup/error event, invoke `onHangup` and then finalize the close
immediately, discarding buffered data rather than draining it; on a
writable event, attempt one flush step. -/
def AsyncFdOutputSink.handleFdEvent (hangup writable : Bool) (cap : Nat)
    (s : AsyncFdOutputSink) : AsyncFdOutputSink × List Event :=
  if hangup then
    let r := AsyncFdOutputSink.doClose s
    (r.1, Event.onHangupCall :: r.2)
  else if writable then AsyncFdOutputSink.flushStdInBuffer cap s
  else (s, [])

/-- Modelled from the spec: `AsyncFdOutputSink::handleWakeupEvent`
(declared at `sink.h` line 106, body in `sink.cc`, not among the
sources).  Clear the wakeup signal, drain the cross-thread queue into the
local buffer preserving enqueue order, then attempt one flush step. -/
def AsyncFdOutputSink.handleWakeupEvent (cap : Nat)
    (s : AsyncFdOutputSink) : AsyncFdOutputSink × List Event :=
  AsyncFdOutputSink.flushStdInBuffer cap
    { s with wakeRaised := false,
             buffer := s.buffer ++ s.threadBuffer.flatten,
             threadBuffer := [] }

/-- The operations through which code can act on an `AsyncFdOutputSink`:
writes (from either kind of thread), close requests, the reactor
processing entry points, and close finalization. -/
inductive Op where
  | write (ioThread : Bool) (cap : Nat) (data : List Char)
  | requestClose
  | handleFdEvent (hangup writable : Bool) (cap : Nat)
  | handleWakeupEvent (cap : Nat)
  | doClose
deriving Repr

/-- Apply one operation to a sink, keeping the resulting sink state. -/
def AsyncFdOutputSink.applyOp (op : Op) (s : AsyncFdOutputSink) :
    AsyncFdOutputSink :=
  match op with
  | Op.write ioThread cap data =>
      (AsyncFdOutputSink.write ioThread cap s data).1
  | Op.requestClose => (AsyncFdOutputSink.requestClose s).1
  | Op.handleFdEvent h w cap =>
      (AsyncFdOutputSink.handleFdEvent h w cap s).1
  | Op.handleWakeupEvent cap =>
      (AsyncFdOutputSink.handleWakeupEvent cap s).1
  | Op.doClose => (AsyncFdOutputSink.doClose s).1

/-- Run a sequence of operations in order. -/
def AsyncFdOutputSink.runOps (ops : List Op) (s : AsyncFdOutputSink) :
    AsyncFdOutputSink :=
  ops.foldl (fun a op => AsyncFdOutputSink.applyOp op a) s

/-- Deliver `n` successive writable readiness events to the sink,
accumulating the emitted events in order. -/
def AsyncFdOutputSink.driveWritable (cap : Nat) :
    Nat → AsyncFdOutputSink → AsyncFdOutputSink × List Event
  | 0, s => (s, [])
  | n + 1, s =>
    let r1 := AsyncFdOutputSink.handleFdEvent false true cap s
    let r2 := AsyncFdOutputSink.driveWritable cap n r1.1
    (r2.1, r1.2 ++ r2.2)

/-- `InputSink::notifyReceived` default body (`sink.h` lines 136-137):
`throw ML::Exception("unimplemented")`, modelled as an error result. -/
def InputSink.notifyReceived (data : List Char) : Except String Unit :=
  Except.error "unimplemented"

/-- `InputSink::notifyClosed` default body (`sink.h` lines 141-142):
`throw ML::Exception("unimplemented")`, modelled as an error result. -/
def InputSink.notifyClosed : Except String Unit :=
  Except.error "unimplemented"

/-! ## Helper lemmas -/

/-- Every state has rank at most that of `CLOSED`. -/
theorem State.rank_le_two (st : State) : st.rank ≤ 2 := by
  cases st <;> simp [State.rank]

/-- Close finalization always leaves the async sink in state `CLOSED`. -/
theorem AsyncFdOutputSink.doClose_state (s : AsyncFdOutputSink) :
    (AsyncFdOutputSink.doClose s).1.state = State.CLOSED := by
  unfold AsyncFdOutputSink.doClose
  split
  · assumption
  · rfl

/-- Close finalization never touches the local buffer. -/
theorem AsyncFdOutputSink.doClose_buffer (s : AsyncFdOutputSink) :
    (AsyncFdOutputSink.doClose s).1.buffer = s.buffer := by
  unfold AsyncFdOutputSink.doClose
  split
  · rfl
  · rfl

/-- Close finalization emits no write on the output descriptor. -/
theorem AsyncFdOutputSink.doClose_noFdWrite (s : AsyncFdOutputSink) :
    (AsyncFdOutputSink.doClose s).2.filter Event.isFdWrite = [] := by
  unfold AsyncFdOutputSink.doClose
  split
  · rfl
  · split <;> rfl

/-- A flush step either keeps the state or finalizes into `CLOSED`. -/
theorem AsyncFdOutputSink.flush_state (cap : Nat) (s : AsyncFdOutputSink) :
    (AsyncFdOutputSink.flushStdInBuffer cap s).1.state = s.state ∨
    (AsyncFdOutputSink.flushStdInBuffer cap s).1.state = State.CLOSED := by
  simp only [AsyncFdOutputSink.flushStdInBuffer]
  split
  · split
    · exact Or.inr (AsyncFdOutputSink.doClose_state _)
    · exact Or.inl rfl
  · split
    · exact Or.inl rfl
    · split
      · exact Or.inr (AsyncFdOutputSink.doClose_state _)
      · exact Or.inl rfl

/-- A flush step never moves the state backward. -/
theorem AsyncFdOutputSink.flush_rank (cap : Nat) (s : AsyncFdOutputSink) :
    s.state.rank ≤ (AsyncFdOutputSink.flushStdInBuffer cap s).1.state.rank := by
  rcases AsyncFdOutputSink.flush_state cap s with h | h
  · rw [h]
  · rw [h]
    exact State.rank_le_two _

/-- Close finalization never moves the state backward. -/
theorem AsyncFdOutputSink.doClose_rank (s : AsyncFdOutputSink) :
    s.state.rank ≤ (AsyncFdOutputSink.doClose s).1.state.rank := by
  rw [AsyncFdOutputSink.doClose_state]
  exact State.rank_le_two _

/-- No single operation ever moves the state backward. -/
theorem AsyncFdOutputSink.applyOp_rank (op : Op) (s : AsyncFdOutputSink) :
    s.state.rank ≤ (AsyncFdOutputSink.applyOp op s).state.rank := by
  cases op with
  | write ioThread cap data =>
    simp only [AsyncFdOutputSink.applyOp, AsyncFdOutputSink.write]
    split
    · split
      · simpa using AsyncFdOutputSink.flush_rank cap
          { s with buffer := s.buffer ++ data }
      · simp
    · simp
  | requestClose =>
    simp only [AsyncFdOutputSink.applyOp, AsyncFdOutputSink.requestClose]
    split
    · rename_i hOpen
      split
      · rw [AsyncFdOutputSink.doClose_state]
        exact State.rank_le_two _
      · simp [hOpen, State.rank]
    · simp
  | handleFdEvent hangup writable cap =>
    simp only [AsyncFdOutputSink.applyOp, AsyncFdOutputSink.handleFdEvent]
    split
    · simpa using AsyncFdOutputSink.doClose_rank s
    · split
      · exact AsyncFdOutputSink.flush_rank cap s
      · simp
  | handleWakeupEvent cap =>
    simp only [AsyncFdOutputSink.applyOp, AsyncFdOutputSink.handleWakeupEvent]
    simpa using AsyncFdOutputSink.flush_rank cap
      { s with wakeRaised := false,
               buffer := s.buffer ++ s.threadBuffer.flatten,
               threadBuffer := [] }
  | doClose =>
    simp only [AsyncFdOutputSink.applyOp]
    exact AsyncFdOutputSink.doClose_rank s

/-- A base-sink close request always leaves the state `CLOSED`. -/
theorem OutputSink.requestClose_state (s : OutputSink) :
    (OutputSink.requestClose s).1.state = State.CLOSED := by
  unfold OutputSink.requestClose OutputSink.doClose
  split
  · assumption
  · rfl

/-- Repeated close requests on an already-closed base sink do nothing. -/
theorem OutputSink.requestCloseN_closed (n : Nat) (s : OutputSink)
    (h : s.state = State.CLOSED) :
    OutputSink.requestCloseN n s = (s, []) := by
  induction n with
  | zero => rfl
  | succ n ih =>
    simp [OutputSink.requestCloseN, OutputSink.requestClose,
      OutputSink.doClose, h, ih]

/-- An async-sink close request never leaves the state `OPEN`. -/
theorem AsyncFdOutputSink.requestClose_notOpen (s : AsyncFdOutputSink) :
    (AsyncFdOutputSink.requestClose s).1.state ≠ State.OPEN := by
  by_cases h : s.state = State.OPEN
  · simp only [AsyncFdOutputSink.requestClose, h, if_true]
    split
    · rw [AsyncFdOutputSink.doClose_state]
      intro hc
      exact State.noConfusion hc
    · intro hc
      exact State.noConfusion hc
  · simp [AsyncFdOutputSink.requestClose, h]

/-- Repeated close requests on an async sink past `OPEN` do nothing. -/
theorem AsyncFdOutputSink.requestCloseN_notOpen (n : Nat)
    (s : AsyncFdOutputSink) (h : s.state ≠ State.OPEN) :
    AsyncFdOutputSink.requestCloseN n s = (s, []) := by
  induction n with
  | zero => rfl
  | succ n ih =>
    simp [AsyncFdOutputSink.requestCloseN, AsyncFdOutputSink.requestClose,
      h, ih]

/-! ## Claim theorems -/

/-- Claim C7: for every byte string, the base `OutputSink::write` delivers
the bytes to `onWrite` exactly once (the event trace is exactly one
`onWriteCall` with those bytes), and it returns `true` if and only if
`onWrite` reports that at least one byte was accepted. -/
theorem C7_base_write_delivers_once (s : OutputSink) (data : List Char) :
    (OutputSink.write s data).2.1 = [Event.onWriteCall data] ∧
    ((OutputSink.write s data).2.2 = true ↔ 0 < s.onWrite data) := by
  constructor
  · rfl
  · simp [OutputSink.write]

/-- Claim C8: the default `InputSink::notifyReceived` and
`InputSink::notifyClosed` fail loudly (they throw, modelled as an error
result) for every input; they never return normally. -/
theorem C8_inputSink_defaults_fail (data : List Char) :
    InputSink.notifyReceived data = Except.error "unimplemented" ∧
    (∀ u : Unit, InputSink.notifyReceived data ≠ Except.ok u) ∧
    InputSink.notifyClosed = Except.error "unimplemented" ∧
    (∀ u : Unit, InputSink.notifyClosed ≠ Except.ok u) := by
  refine ⟨rfl, ?_, rfl, ?_⟩
  · intro u h
    simp [InputSink.notifyReceived] at h
  · intro u h
    simp [InputSink.notifyClosed] at h

/-- Claim C9: the copy overload `write(const std::string &)` — which
copies its argument and delegates to the dispatched rvalue overload —
returns the same result, with the same state change and the same
callback/queue effects, as the rvalue overload applied to an equal string,
for the base sink and for the async sink alike. -/
theorem C9_copy_overload_equiv (data : List Char) :
    (∀ s : OutputSink,
      writeCopy OutputSink.write s data = OutputSink.write s data) ∧
    (∀ (a : AsyncFdOutputSink) (ioThread : Bool) (cap : Nat),
      writeCopy (AsyncFdOutputSink.write ioThread cap) a data
        = AsyncFdOutputSink.write ioThread cap a data) :=
  ⟨fun _ => rfl, fun _ _ _ => rfl⟩

/-- Claim C10: every sink is in state `OPEN` immediately after
construction, for every choice of callbacks and buffer size. -/
theorem C10_constructed_open :
    (∀ (onWrite : List Char → Nat) (hasOnClose : Bool),
      (OutputSink.create onWrite hasOnClose).state = State.OPEN) ∧
    (∀ (hasOnClose : Bool) (bufferSize : Nat),
      (AsyncFdOutputSink.create hasOnClose bufferSize).state = State.OPEN) :=
  ⟨fun _ _ => rfl, fun _ _ => rfl⟩

/-- Claim C5: a write on an `OPEN` async sink from a non-I/O thread pushes
the bytes onto the cross-thread queue, raises the wake signal and returns
`true`; the local buffer, the state and the descriptor are untouched
(no `fdWrite` event), so actual transmission is deferred. -/
theorem C5_write_nonIoThread (s : AsyncFdOutputSink) (cap : Nat)
    (data : List Char) (h : s.state = State.OPEN) :
    AsyncFdOutputSink.write false cap s data
      = ({ s with threadBuffer := s.threadBuffer ++ [data],
                  wakeRaised := true },
         [Event.enqueued data, Event.wakeRaised], true) := by
  simp [AsyncFdOutputSink.write, h]

/-- A fresh async sink used to witness claim C5. -/
def c5SampleSink : AsyncFdOutputSink := AsyncFdOutputSink.create true 32

/-- Witness for claim C5 at a concrete open sink and byte string. -/
theorem C5_write_nonIoThread_witness :
    c5SampleSink.state = State.OPEN ∧
    AsyncFdOutputSink.write false 4 c5SampleSink ['h', 'i']
      = ({ c5SampleSink with
           threadBuffer := c5SampleSink.threadBuffer ++ [['h', 'i']],
           wakeRaised := true },
         [Event.enqueued ['h', 'i'], Event.wakeRaised], true) :=
  ⟨by decide, C5_write_nonIoThread c5SampleSink 4 ['h', 'i'] (by decide)⟩

/-- A base `OutputSink` that is already `CLOSED`, with a medium accepting
every byte offered. -/
def baseClosedSink : OutputSink :=
  { state := State.CLOSED, onWrite := fun d => d.length,
    hasOnClose := false }

/-- Claim C1, counterexample: the base `OutputSink::write` does not
consult the state.  On a `CLOSED` base sink it still invokes `onWrite`
(one `onWriteCall` event) and returns `true` when the medium accepts the
byte, contradicting the claim for every `OutputSink`. -/
theorem C1_counterexample_base_write :
    baseClosedSink.state ≠ State.OPEN ∧
    (OutputSink.write baseClosedSink ['a']).2.2 = true ∧
    (OutputSink.write baseClosedSink ['a']).2.1
      = [Event.onWriteCall ['a']] := by
  refine ⟨by decide, ?_, rfl⟩
  rfl

/-- Claim C1 (amended): for every `AsyncFdOutputSink` whose state is not
`OPEN`, `write` returns `false` and has no side effect — the sink is
unchanged, `onWrite` is not invoked and nothing is enqueued.  The base
`OutputSink::write` is excluded: it delegates to `onWrite`
unconditionally. -/
theorem C1_async_write_rejected (s : AsyncFdOutputSink) (ioThread : Bool)
    (cap : Nat) (data : List Char) (h : s.state ≠ State.OPEN) :
    AsyncFdOutputSink.write ioThread cap s data = (s, [], false) := by
  simp [AsyncFdOutputSink.write, h]

/-- An async sink past `OPEN`, with a byte still buffered, used to witness
the amended claim C1. -/
def c1ClosedAsyncSink : AsyncFdOutputSink :=
  { state := State.CLOSED, hasOnClose := true, threadBuffer := [],
    buffer := ['x'], wakeRaised := false }

/-- Witness for the amended claim C1 at a concrete closed async sink. -/
theorem C1_async_write_rejected_witness :
    c1ClosedAsyncSink.state ≠ State.OPEN ∧
    AsyncFdOutputSink.write false 2 c1ClosedAsyncSink ['a']
      = (c1ClosedAsyncSink, [], false) :=
  ⟨by decide,
   C1_async_write_rejected c1ClosedAsyncSink false 2 ['a'] (by decide)⟩

/-- Claim C4: on a hangup/error event the async sink invokes `onHangup`,
finalizes the close immediately — the trace is exactly
`[onHangupCall, onCloseCall]`, so `onHangup` fires before `onClose` and no
`fdWrite` occurs: buffered data is discarded rather than drained — and
every subsequent write returns `false`. -/
theorem C4_hangup_closes (s : AsyncFdOutputSink) (writable : Bool)
    (cap : Nat) (h1 : s.state ≠ State.CLOSED) (h2 : s.hasOnClose = true) :
    AsyncFdOutputSink.handleFdEvent true writable cap s
      = ({ s with state := State.CLOSED },
         [Event.onHangupCall, Event.onCloseCall]) ∧
    ∀ (ioThread : Bool) (cap2 : Nat) (data : List Char),
      AsyncFdOutputSink.write ioThread cap2
          { s with state := State.CLOSED } data
        = ({ s with state := State.CLOSED }, [], false) := by
  constructor
  · simp [AsyncFdOutputSink.handleFdEvent, AsyncFdOutputSink.doClose,
      h1, h2]
  · intro ioThread cap2 data
    simp [AsyncFdOutputSink.write]

/-- An open async sink with two bytes still buffered, used to witness
claim C4. -/
def c4HangupSink : AsyncFdOutputSink :=
  { state := State.OPEN, hasOnClose := true, threadBuffer := [],
    buffer := ['x', 'y'], wakeRaised := false }

/-- Witness for claim C4 at a concrete open sink with buffered data. -/
theorem C4_hangup_closes_witness :
    (c4HangupSink.state ≠ State.CLOSED ∧ c4HangupSink.hasOnClose = true) ∧
    AsyncFdOutputSink.handleFdEvent true false 2 c4HangupSink
      = ({ c4HangupSink with state := State.CLOSED },
         [Event.onHangupCall, Event.onCloseCall]) ∧
    AsyncFdOutputSink.write false 2
        { c4HangupSink with state := State.CLOSED } ['z']
      = ({ c4HangupSink with state := State.CLOSED }, [], false) :=
  ⟨⟨by decide, by decide⟩,
   (C4_hangup_closes c4HangupSink false 2 (by decide) (by decide)).1,
   (C4_hangup_closes c4HangupSink false 2 (by decide) (by decide)).2
     false 2 ['z']⟩

/-- Claim C2: `requestClose` is idempotent — a second (and hence any
further) call leaves the sink unchanged and emits nothing, for base and
async sinks alike — and a freshly constructed sink subjected to any
positive number of `requestClose` calls ends `CLOSED` with `onClose`
invoked exactly once. -/
theorem C2_requestClose_idempotent :
    (∀ s : OutputSink,
      OutputSink.requestClose (OutputSink.requestClose s).1
        = ((OutputSink.requestClose s).1, [])) ∧
    (∀ s : AsyncFdOutputSink,
      AsyncFdOutputSink.requestClose (AsyncFdOutputSink.requestClose s).1
        = ((AsyncFdOutputSink.requestClose s).1, [])) ∧
    (∀ (onWrite : List Char → Nat) (n : Nat),
      (OutputSink.requestCloseN (n + 1)
          (OutputSink.create onWrite true)).1.state = State.CLOSED ∧
      (OutputSink.requestCloseN (n + 1)
          (OutputSink.create onWrite true)).2.count Event.onCloseCall
        = 1) ∧
    (∀ (bufferSize n : Nat),
      (AsyncFdOutputSink.requestCloseN (n + 1)
          (AsyncFdOutputSink.create true bufferSize)).1.state
        = State.CLOSED ∧
      (AsyncFdOutputSink.requestCloseN (n + 1)
          (AsyncFdOutputSink.create true bufferSize)).2.count
          Event.onCloseCall = 1) := by
  refine ⟨?_, ?_, ?_, ?_⟩
  · intro s
    have h := OutputSink.requestClose_state s
    revert h
    generalize (OutputSink.requestClose s).1 = t
    intro h
    simp [OutputSink.requestClose, OutputSink.doClose, h]
  · intro s
    have h := AsyncFdOutputSink.requestClose_notOpen s
    revert h
    generalize (AsyncFdOutputSink.requestClose s).1 = t
    intro h
    simp [AsyncFdOutputSink.requestClose, h]
  · intro onWrite n
    have h1 : OutputSink.requestClose (OutputSink.create onWrite true)
        = ({ OutputSink.create onWrite true with state := State.CLOSED },
           [Event.onCloseCall]) := by
      simp [OutputSink.requestClose, OutputSink.doClose, OutputSink.create]
    have h2 := OutputSink.requestCloseN_closed n
      { OutputSink.create onWrite true with state := State.CLOSED } rfl
    simp [OutputSink.requestCloseN, h1, h2]
  · intro bufferSize n
    have h1 : AsyncFdOutputSink.requestClose
          (AsyncFdOutputSink.create true bufferSize)
        = ({ AsyncFdOutputSink.create true bufferSize with
             state := State.CLOSED },
           [Event.onCloseCall]) := by
      simp [AsyncFdOutputSink.requestClose, AsyncFdOutputSink.doClose,
        AsyncFdOutputSink.create]
    have h2 := AsyncFdOutputSink.requestCloseN_notOpen n
      { AsyncFdOutputSink.create true bufferSize with
        state := State.CLOSED } (by simp [AsyncFdOutputSink.create])
    simp [AsyncFdOutputSink.requestCloseN, h1, h2]

/-- Claim C6: the sink state is one of `OPEN`, `CLOSING`, `CLOSED`, and no
sequence of operations — writes, close requests, reactor processing
(descriptor and wakeup events) or close finalization — ever moves the
state backward along `OPEN -> CLOSING -> CLOSED`. -/
theorem C6_state_monotone :
    (∀ st : State,
      st = State.OPEN ∨ st = State.CLOSING ∨ st = State.CLOSED) ∧
    ∀ (ops : List Op) (s : AsyncFdOutputSink),
      s.state.rank ≤ (AsyncFdOutputSink.runOps ops s).state.rank := by
  constructor
  · intro st
    cases st
    · exact Or.inl rfl
    · exact Or.inr (Or.inl rfl)
    · exact Or.inr (Or.inr rfl)
  · intro ops
    induction ops with
    | nil =>
      intro s
      exact le_refl _
    | cons op ops ih =>
      intro s
      have h1 := AsyncFdOutputSink.applyOp_rank op s
      have h2 := ih (AsyncFdOutputSink.applyOp op s)
      have hrun : AsyncFdOutputSink.runOps (op :: ops) s
          = AsyncFdOutputSink.runOps ops (AsyncFdOutputSink.applyOp op s) :=
        rfl
      rw [hrun]
      exact le_trans h1 h2

/-- An open async sink whose local buffer holds the bytes of `"abcdef"`,
used in claim C3. -/
def abcdefSink : AsyncFdOutputSink :=
  { state := State.OPEN, hasOnClose := true, threadBuffer := [],
    buffer := ['a', 'b', 'c', 'd', 'e', 'f'], wakeRaised := false }

/-- Claim C3: each flush step issues exactly one non-blocking write — the
filtered trace is one `fdWrite` carrying the accepted front of the local
buffer — and removes exactly that accepted part; and, concretely, draining
the buffer `"abcdef"` through a descriptor accepting at most 2 bytes per
call takes exactly three underlying writes of 2 bytes each, in order,
leaving the local buffer empty. -/
theorem C3_flush_acceptedFront (cap : Nat) (s : AsyncFdOutputSink)
    (hb : s.buffer ≠ []) (hc : 0 < cap) :
    ((AsyncFdOutputSink.flushStdInBuffer cap s).1.buffer
        = s.buffer.drop (min cap s.buffer.length) ∧
     (AsyncFdOutputSink.flushStdInBuffer cap s).2.filter Event.isFdWrite
        = [Event.fdWrite (s.buffer.take (min cap s.buffer.length))]) ∧
    AsyncFdOutputSink.driveWritable 2 3 abcdefSink
      = ({ abcdefSink with buffer := [] },
         [Event.fdWrite ['a', 'b'], Event.fdWrite ['c', 'd'],
          Event.fdWrite ['e', 'f']]) := by
  constructor
  · have hne : s.buffer.isEmpty = false := by
      cases h : s.buffer
      · exact absurd h hb
      · rfl
    have hn : ¬ min cap s.buffer.length = 0 := by
      have hp : 0 < min cap s.buffer.length :=
        lt_min hc (List.length_pos.mpr hb)
      omega
    simp only [AsyncFdOutputSink.flushStdInBuffer]
    split_ifs with h1 h2 h3
    · rw [hne] at h1
      exact Bool.noConfusion h1
    · rw [hne] at h1
      exact Bool.noConfusion h1
    · constructor
      · rw [AsyncFdOutputSink.doClose_buffer]
      · simp [List.filter_cons, Event.isFdWrite,
          AsyncFdOutputSink.doClose_noFdWrite]
    · constructor
      · rfl
      · simp [List.filter_cons, Event.isFdWrite]
  · decide

/-- Witness for claim C3: the flush-step part instantiated on the
`"abcdef"` sink with a descriptor accepting at most 2 bytes per call. -/
theorem C3_flush_acceptedFront_witness :
    (abcdefSink.buffer ≠ [] ∧ (0 : Nat) < 2) ∧
    ((AsyncFdOutputSink.flushStdInBuffer 2 abcdefSink).1.buffer
        = abcdefSink.buffer.drop (min 2 abcdefSink.buffer.length) ∧
     (AsyncFdOutputSink.flushStdInBuffer 2 abcdefSink).2.filter
         Event.isFdWrite
        = [Event.fdWrite
            (abcdefSink.buffer.take (min 2 abcdefSink.buffer.length))]) :=
  ⟨⟨by decide, by decide⟩,
   (C3_flush_acceptedFront 2 abcdefSink (by decide) (by decide)).1⟩
